import Mathlib

/-!
Shallow embedding of the CustomerVision-Dashboard normalization and
annotation core.

Numeric values that the Python code handles as floats are modelled as
exact rationals (`Rat`); dictionaries with string keys are modelled as
association lists; Python `None` defaults become `Option`; a Python
`try/except` that drops a record becomes an `Option`-valued parser, and
the annotator's outer `try/except` becomes an `Except`-valued pipeline
whose error case falls back to the source image.

Sources embedded:
  src/models/detection_models.py   (BoundingBox, Detection, DetectionResult)
  src/services/azure_service.py    (AzureCustomVisionService._parse_azure_response)
  src/services/google_service.py   (GoogleAutoMLService._parse_response,
                                    _create_detection_from_box)
  src/utils/image_processor.py     (ImageProcessor.colors, draw_bounding_boxes)
-/

/-- Structure `BoundingBox` from detection_models.py: four floats, normalized
image coordinates, origin top-left. -/
structure BoundingBox where
  left : Rat
  top : Rat
  width : Rat
  height : Rat
deriving DecidableEq, Repr

/-- Structure `Detection` from detection_models.py: a label, a confidence score
and a bounding box. -/
structure Detection where
  tag_name : String
  confidence : Rat
  bounding_box : BoundingBox
deriving DecidableEq, Repr

/-- Structure `DetectionResult` from detection_models.py. -/
structure DetectionResult where
  service_name : String
  detections : List Detection
  processing_time : Rat
  image_dimensions : Nat × Nat
  confidence_threshold : Rat
deriving DecidableEq, Repr

/-- Method `DetectionResult.get_high_confidence_detections`: the Python default
argument `threshold=None` is modelled by an `Option Rat` argument;
`none` means the caller did not supply a threshold, in which case the
result's own `confidence_threshold` is used.  The list comprehension
`[d for d in self.detections if d.confidence >= thresh]` is a filter. -/
def DetectionResult.get_high_confidence_detections
    (res : DetectionResult) (threshold : Option Rat) : List Detection :=
  let thresh := threshold.getD res.confidence_threshold
  res.detections.filter (fun d => thresh ≤ d.confidence)

/-- Python `dict.get(key, default)` on a string-keyed dict of floats. -/
def dictGetD (d : List (String × Rat)) (k : String) (dflt : Rat) : Rat :=
  (d.lookup k).getD dflt

/-- One record of an Azure Custom Vision response, as read by
`_parse_azure_response`: `boundingBox` is a float-valued dict (the empty
list models both an absent key and an empty dict, which Python's
`if not bbox_data` treats alike), `tagName` and `probability` are
optional. -/
structure AzurePrediction where
  boundingBox : List (String × Rat)
  tagName : Option String
  probability : Option Rat
deriving DecidableEq, Repr

/-- The per-record body of `AzureCustomVisionService._parse_azure_response`:
skip when the box dict is missing/empty, coerce the four box fields with
default 0.0, skip when `width <= 0 or height <= 0`, default a missing
`tagName` to "Unknown" and a missing `probability` to 0.0. -/
def parse_azure_prediction (p : AzurePrediction) : Option Detection :=
  if p.boundingBox.isEmpty then
    none
  else
    let bb : BoundingBox :=
      { left := dictGetD p.boundingBox ("left") 0
        top := dictGetD p.boundingBox ("top") 0
        width := dictGetD p.boundingBox ("width") 0
        height := dictGetD p.boundingBox ("height") 0 }
    if bb.width ≤ 0 ∨ bb.height ≤ 0 then
      none
    else
      some { tag_name := p.tagName.getD ("Unknown")
             confidence := p.probability.getD 0
             bounding_box := bb }

/-- Function `_parse_azure_response` over the `predictions` list: each record is
parsed inside its own `try/except ... continue`, so the whole response
is the concatenation of the per-record successes. -/
def parse_azure_response (preds : List AzurePrediction) : List Detection :=
  preds.filterMap parse_azure_prediction

/-- An untyped wire value inside a Google bbox entry: a number, a
string, or a nested list (as produced by `_extract_list_values` for
nested `ListValue`s). -/
inductive GVal where
  | num : Rat → GVal
  | str : String → GVal
  | list : List GVal → GVal

/-- Python `float(x)` on a wire value: succeeds only on a number
(`float` on a list or non-numeric string raises, which the enclosing
`except` turns into a dropped record). -/
def gvalToFloat : GVal → Option Rat
  | GVal.num r => some r
  | _ => none

/-- Python builtin `max(a, b)`: returns `b` exactly when it is strictly
larger, `a` on ties (indistinguishable on rationals). -/
def pyMax (a b : Rat) : Rat :=
  if a < b then b else a

/-- Python builtin `min(a, b)`. -/
def pyMin (a b : Rat) : Rat :=
  if b < a then b else a

/-- Expression `max(0.0, min(1.0, x))` from `_create_detection_from_box`. -/
def clamp01 (x : Rat) : Rat :=
  pyMax 0 (pyMin 1 x)

/-- Method `GoogleAutoMLService._create_detection_from_box`: requires at least
4 box entries, reads them in `(xmin, xmax, ymin, ymax)` order, coerces
each to float (failure drops the record), clamps each coordinate to
[0,1], computes `width = xmax - xmin`, `height = ymax - ymin`, and
returns a Detection only when both are positive. -/
def create_detection_from_box (name : String) (box : List GVal) (score : Rat) :
    Option Detection :=
  match box with
  | xmin :: xmax :: ymin :: ymax :: _ => do
      let x0 ← gvalToFloat xmin
      let x1 ← gvalToFloat xmax
      let y0 ← gvalToFloat ymin
      let y1 ← gvalToFloat ymax
      let x0 := clamp01 x0
      let y0 := clamp01 y0
      let x1 := clamp01 x1
      let y1 := clamp01 y1
      let width := x1 - x0
      let height := y1 - y0
      if 0 < width ∧ 0 < height then
        some { tag_name := name
               confidence := score
               bounding_box :=
                 { left := x0, top := y0, width := width, height := height } }
      else
        none
  | _ => none

/-- The standard-format branch of `GoogleAutoMLService._parse_response`:
`for name, box, score in zip(names, boxes, scores)` paired positionally
(Python `zip` stops at the shortest input), each triple parsed inside
its own `try/except`. -/
def parse_google_standard (names : List String) (boxes : List (List GVal))
    (scores : List Rat) : List Detection :=
  (names.zip (boxes.zip scores)).filterMap
    (fun x => create_detection_from_box x.1 x.2.1 x.2.2)

/-- Field `ImageProcessor.colors`: the fixed ten-color palette. -/
def colors : List String :=
  ["#FF6B6B", "#4ECDC4", "#45B7D1", "#96CEB4", "#FFEAA7",
   "#DDA0DD", "#98D8C8", "#F7DC6F", "#BB8FCE", "#85C1E9"]

/-- Loop `for i, tag in enumerate(unique_tags): tag_colors[tag] =
self.colors[i % len(self.colors)]` — the tag-to-color dict built from
the enumeration order of `unique_tags`. -/
def assign_tag_colors (unique_tags : List String) : List (String × String) :=
  unique_tags.enum.map (fun p => (p.2, colors.getD (p.1 % colors.length) ("")))

/-- Color looked up for one tag, given the enumeration order of the
unique tags. -/
def tag_color (unique_tags : List String) (t : String) : Option String :=
  (assign_tag_colors unique_tags).lookup t

/-- A PIL raster image, identified by its pixel content: `image.copy()`
duplicates the content, and two images are pixel-identical exactly when
they are equal here. -/
structure PilImage where
  width : Nat
  height : Nat
  pixels : List (List String)
deriving DecidableEq, Repr

/-- A loaded PIL font. -/
structure Font where
  name : String
  size : Nat
deriving DecidableEq, Repr

/-- The text bounding box returned by `draw.textbbox`. -/
structure TextBox where
  x0 : Int
  y0 : Int
  x1 : Int
  y1 : Int
deriving DecidableEq, Repr

/-- Python `int(x)` on a float: truncation toward zero. -/
def pyInt (x : Rat) : Int :=
  Int.tdiv x.num (Int.ofNat x.den)

/-- The external drawing/font environment of
`ImageProcessor.draw_bounding_boxes`.  Each PIL primitive may raise,
modelled as an `Except`; `enumSet` models Python's `list(set(xs))`,
whose enumeration order the language does not pin down, so it is part
of the environment. -/
structure DrawOracle where
  loadArial : Except String Font
  loadCalibri : Except String Font
  defaultFont : Font
  drawRect : PilImage → Int → Int → Int → Int → String → Except String PilImage
  fillRect : PilImage → Int → Int → Int → Int → String → Except String PilImage
  textbbox : Font → String → Except String TextBox
  drawText : PilImage → Int → Int → String → String → Font → Except String PilImage
  enumSet : List String → List String

/-- The font-loading cascade: try "arial.ttf", on failure try
"calibri.ttf", on failure fall back to `load_default()`.  The inner
`try/except` pairs mean a font-loading failure never escapes. -/
def load_font (o : DrawOracle) : Font :=
  match o.loadArial with
  | Except.ok f => f
  | Except.error _ =>
      match o.loadCalibri with
      | Except.ok f => f
      | Except.error _ => o.defaultFont

/-- The per-detection body of the drawing loop: pixel conversion of the
normalized box, the rectangle outline, the label text box, the
translucent background panel and the white label text.  A missing tag
in `tag_colors` is Python's `KeyError`, modelled as a thrown error. -/
def draw_detection (o : DrawOracle) (W H : Nat) (font : Font)
    (tag_colors : List (String × String)) (img : PilImage) (d : Detection) :
    Except String PilImage := do
  let bbox := d.bounding_box
  let color ←
    match tag_colors.lookup d.tag_name with
    | some c => pure c
    | none => throw ("KeyError")
  let left := pyInt (bbox.left * (W : Rat))
  let top := pyInt (bbox.top * (H : Rat))
  let right := pyInt ((bbox.left + bbox.width) * (W : Rat))
  let bottom := pyInt ((bbox.top + bbox.height) * (H : Rat))
  let img1 ← o.drawRect img left top right bottom color
  let label := d.tag_name
  let tb ← o.textbbox font label
  let text_width := tb.x1 - tb.x0
  let text_height := tb.y1 - tb.y0
  let text_x := left
  let text_y := if (0 : Int) < top - text_height - 2 then top - text_height - 2 else 0
  let img2 ← o.fillRect img1 (text_x - 1) (text_y - 1)
      (text_x + text_width + 2) (text_y + text_height + 1) (color ++ "CC")
  let img3 ← o.drawText img2 text_x text_y label ("white") font
  pure img3

/-- The body of the outer `try` of `draw_bounding_boxes`: copy the
image, filter by confidence, assign colors to the unique tags, load a
font, then draw every surviving detection on the copy. -/
def draw_pipeline (o : DrawOracle) (image : PilImage) (res : DetectionResult)
    (thr : Rat) : Except String PilImage := do
  let image_copy := image
  let W := image.width
  let H := image.height
  let filtered := res.get_high_confidence_detections (some thr)
  let unique_tags := o.enumSet (filtered.map (fun d => d.tag_name))
  let tag_colors := assign_tag_colors unique_tags
  let font := load_font o
  filtered.foldlM (draw_detection o W H font tag_colors) image_copy

/-- Method `ImageProcessor.draw_bounding_boxes`: the whole pipeline runs inside
one `try/except Exception`, and on any failure the unannotated source
image is returned instead. -/
def draw_bounding_boxes (o : DrawOracle) (image : PilImage)
    (res : DetectionResult) (thr : Rat) : PilImage :=
  match draw_pipeline o image res thr with
  | Except.ok annotated => annotated
  | Except.error _ => image

/-! ### Concrete sample data used by witnesses and scenario theorems -/

/-- A sample surviving bounding box. -/
def sampleBox : BoundingBox :=
  { left := mkRat 1 10, top := mkRat 1 10, width := mkRat 1 5, height := mkRat 1 5 }

/-- A sample high-confidence detection. -/
def sampleDetA : Detection :=
  { tag_name := "cat", confidence := mkRat 9 10, bounding_box := sampleBox }

/-- A sample low-confidence detection. -/
def sampleDetB : Detection :=
  { tag_name := "dog", confidence := mkRat 2 5, bounding_box := sampleBox }

/-- A sample detection result. -/
def sampleResult : DetectionResult :=
  { service_name := "Azure Custom Vision"
    detections := [sampleDetA, sampleDetB]
    processing_time := mkRat 1 10
    image_dimensions := (2, 2)
    confidence_threshold := mkRat 3 10 }

/-! ### Claims -/

/-- Claim C1: a Variant-B (Google) 4-tuple box in (xmin, xmax, ymin,
ymax) order is normalized by clamping each coordinate to [0,1], taking
left = xmin, top = ymin, width = xmax - xmin, height = ymax - ymin, and
keeping the record exactly when width > 0 and height > 0; the tuple
(0.1, 0.5, 0.2, 0.9) yields left 0.1, top 0.2, width 0.4, height 0.7. -/
theorem google_tuple_conversion_c1 :
    (∀ (name : String) (score xmin xmax ymin ymax : Rat),
      create_detection_from_box name
          [GVal.num xmin, GVal.num xmax, GVal.num ymin, GVal.num ymax] score =
        if 0 < clamp01 xmax - clamp01 xmin ∧ 0 < clamp01 ymax - clamp01 ymin then
          some { tag_name := name, confidence := score,
                 bounding_box :=
                   { left := clamp01 xmin, top := clamp01 ymin,
                     width := clamp01 xmax - clamp01 xmin,
                     height := clamp01 ymax - clamp01 ymin } }
        else none)
    ∧ create_detection_from_box ("t")
        [GVal.num (mkRat 1 10), GVal.num (mkRat 1 2), GVal.num (mkRat 1 5),
         GVal.num (mkRat 9 10)] (mkRat 3 4) =
      some { tag_name := ("t"), confidence := mkRat 3 4,
             bounding_box :=
               { left := mkRat 1 10, top := mkRat 1 5,
                 width := mkRat 2 5, height := mkRat 7 10 } } := by
  constructor
  · intro name score xmin xmax ymin ymax
    rfl
  · with_unfolding_all decide

/-- Claim C3: filtering keeps exactly the detections with confidence at
least the threshold, preserves their original relative order (the output
is a sublist of the input sequence), and an unsupplied threshold
defaults to the result's own confidence_threshold. -/
theorem filter_by_confidence_c3 :
    ∀ (res : DetectionResult) (t : Rat),
      (∀ d, d ∈ res.get_high_confidence_detections (some t) ↔
          d ∈ res.detections ∧ t ≤ d.confidence)
      ∧ (res.get_high_confidence_detections (some t)).Sublist res.detections
      ∧ res.get_high_confidence_detections none =
          res.get_high_confidence_detections (some res.confidence_threshold) := by
  intro res t
  refine ⟨?_, ?_, rfl⟩
  · intro d
    simp [DetectionResult.get_high_confidence_detections, List.mem_filter]
  · exact List.filter_sublist res.detections

/-- Claim C6: for thresholds t1 < t2, the detections surviving the
higher threshold form a subsequence of those surviving the lower one. -/
theorem filter_monotone_c6 :
    ∀ (res : DetectionResult) (t1 t2 : Rat), t1 < t2 →
      (res.get_high_confidence_detections (some t2)).Sublist
        (res.get_high_confidence_detections (some t1)) := by
  intro res t1 t2 h
  exact List.monotone_filter_right res.detections (fun d hd => by
    simp only [decide_eq_true_eq] at hd ⊢
    exact le_trans (le_of_lt h) hd)

/-- Witness for claim C6 at thresholds 0 < 1 on a concrete result. -/
theorem filter_monotone_c6_witness :
    ((0 : Rat) < 1) ∧
      (sampleResult.get_high_confidence_detections (some 1)).Sublist
        (sampleResult.get_high_confidence_detections (some 0)) :=
  ⟨by norm_num, filter_monotone_c6 sampleResult 0 1 (by norm_num)⟩

/-- Lower bound of the clamp used by the Google tuple normalizer. -/
theorem clamp01_nonneg (x : Rat) : 0 ≤ clamp01 x := by
  unfold clamp01 pyMax
  split
  · linarith
  · linarith

/-- Upper bound of the clamp used by the Google tuple normalizer. -/
theorem clamp01_le_one (x : Rat) : clamp01 x ≤ 1 := by
  unfold clamp01 pyMax pyMin
  by_cases h1 : x < 1
  · simp only [if_pos h1]
    by_cases h0 : (0 : Rat) < x
    · simp only [if_pos h0]
      linarith
    · simp only [if_neg h0]
      linarith
  · simp only [if_neg h1]
    rw [if_pos (show (0 : Rat) < 1 by norm_num)]

/-- Any detection produced by `_create_detection_from_box` carries a box
assembled from clamped coordinates with positive extents. -/
theorem create_detection_box_shape (name : String) (box : List GVal)
    (score : Rat) (d : Detection)
    (h : create_detection_from_box name box score = some d) :
    ∃ a b c e, d.bounding_box =
        { left := clamp01 a, top := clamp01 c,
          width := clamp01 b - clamp01 a, height := clamp01 e - clamp01 c } ∧
      0 < clamp01 b - clamp01 a ∧ 0 < clamp01 e - clamp01 c := by
  rcases box with _ | ⟨v0, _ | ⟨v1, _ | ⟨v2, _ | ⟨v3, rest⟩⟩⟩⟩
  · simp [create_detection_from_box] at h
  · simp [create_detection_from_box] at h
  · simp [create_detection_from_box] at h
  · simp [create_detection_from_box] at h
  · cases hv0 : gvalToFloat v0 with
    | none => simp [create_detection_from_box, hv0] at h
    | some a =>
      cases hv1 : gvalToFloat v1 with
      | none => simp [create_detection_from_box, hv0, hv1] at h
      | some b =>
        cases hv2 : gvalToFloat v2 with
        | none => simp [create_detection_from_box, hv0, hv1, hv2] at h
        | some c =>
          cases hv3 : gvalToFloat v3 with
          | none => simp [create_detection_from_box, hv0, hv1, hv2, hv3] at h
          | some e =>
            simp only [create_detection_from_box, hv0, hv1, hv2, hv3,
              Option.bind_eq_bind, Option.some_bind] at h
            split at h
            · rename_i hpos
              cases h
              exact ⟨a, b, c, e, rfl, hpos.1, hpos.2⟩
            · simp at h

/-- Sample Azure record that survives parsing. -/
def azureRec1 : AzurePrediction :=
  { boundingBox := [("left", mkRat 1 10), ("top", mkRat 1 10),
                    ("width", mkRat 1 5), ("height", mkRat 1 5)]
    tagName := some ("cat")
    probability := some (mkRat 9 10) }

/-- Sample Azure record with `width = 0`, dropped by parsing. -/
def azureRec2 : AzurePrediction :=
  { boundingBox := [("left", mkRat 1 4), ("top", mkRat 1 4),
                    ("width", 0), ("height", mkRat 1 5)]
    tagName := some ("dog")
    probability := some (mkRat 4 5) }

/-- Sample Azure record lacking a `tagName`. -/
def azureRec3 : AzurePrediction :=
  { boundingBox := [("left", mkRat 1 2), ("top", mkRat 1 2),
                    ("width", mkRat 3 10), ("height", mkRat 2 5)]
    tagName := none
    probability := some (mkRat 7 10) }

/-- Sample Azure record with no bounding box dict at all. -/
def azureRecNoBox : AzurePrediction :=
  { boundingBox := [], tagName := some ("x"), probability := none }

/-- The detection parsed from `azureRec1`. -/
def azureDet1 : Detection :=
  { tag_name := "cat", confidence := mkRat 9 10
    bounding_box := { left := mkRat 1 10, top := mkRat 1 10,
                      width := mkRat 1 5, height := mkRat 1 5 } }

/-- The detection parsed from `azureRec3`. -/
def azureDet3 : Detection :=
  { tag_name := "Unknown", confidence := mkRat 7 10
    bounding_box := { left := mkRat 1 2, top := mkRat 1 2,
                      width := mkRat 3 10, height := mkRat 2 5 } }

/-- Azure record whose box lies far outside the unit square. -/
def azureOutOfRange : AzurePrediction :=
  { boundingBox := [("left", 5), ("top", 0), ("width", 1), ("height", 1)]
    tagName := some ("t")
    probability := some (mkRat 1 2) }

/-- The detection the Azure parser produces from `azureOutOfRange`. -/
def azureOutOfRangeDet : Detection :=
  { tag_name := "t", confidence := mkRat 1 2
    bounding_box := { left := 5, top := 0, width := 1, height := 1 } }

/-- Claim C2 counterexample: the Azure normalizer never clamps or
range-checks coordinates, so a record with `left = 5` survives
normalization while `left + width = 6` exceeds `1 + 1e-6`. -/
theorem box_validity_c2_counterexample :
    parse_azure_response [azureOutOfRange] = [azureOutOfRangeDet] ∧
      1 + mkRat 1 1000000 <
        azureOutOfRangeDet.bounding_box.left + azureOutOfRangeDet.bounding_box.width := by
  with_unfolding_all decide

/-- Claim C2 (amended): every detection surviving either normalizer has
`width > 0` and `height > 0`; the `[0,1]` containment of `left`, `top`,
`left + width`, `top + height` holds for the Google tuple normalizer
(whose coordinates are clamped), but not for the Azure normalizer. -/
theorem box_validity_c2 :
    (∀ (p : AzurePrediction) (d : Detection),
        parse_azure_prediction p = some d →
          0 < d.bounding_box.width ∧ 0 < d.bounding_box.height)
    ∧ (∀ (name : String) (box : List GVal) (score : Rat) (d : Detection),
        create_detection_from_box name box score = some d →
          0 < d.bounding_box.width ∧ 0 < d.bounding_box.height ∧
          0 ≤ d.bounding_box.left ∧ 0 ≤ d.bounding_box.top ∧
          d.bounding_box.left + d.bounding_box.width ≤ 1 ∧
          d.bounding_box.top + d.bounding_box.height ≤ 1) := by
  constructor
  · intro p d h
    simp only [parse_azure_prediction] at h
    split at h
    · exact absurd h (by simp)
    · split at h
      · exact absurd h (by simp)
      · rename_i hguard
        push_neg at hguard
        cases h
        exact ⟨hguard.1, hguard.2⟩
  · intro name box score d h
    obtain ⟨a, b, c, e, hbox, hw, hh⟩ := create_detection_box_shape name box score d h
    rw [hbox]
    refine ⟨hw, hh, clamp01_nonneg a, clamp01_nonneg c, ?_, ?_⟩
    · have := clamp01_le_one b
      simp only []
      linarith
    · have := clamp01_le_one e
      simp only []
      linarith

/-- Witness for claim C2 at a concrete surviving Azure record and a
concrete surviving Google tuple. -/
theorem box_validity_c2_witness :
    (parse_azure_prediction azureRec1 = some azureDet1) ∧
      0 < azureDet1.bounding_box.width ∧ 0 < azureDet1.bounding_box.height :=
  ⟨by with_unfolding_all decide,
   box_validity_c2.1 azureRec1 azureDet1 (by with_unfolding_all decide)⟩

/-- Claim C4: Azure parsing is per-record: a record with an absent box
or non-positive width/height is discarded while the rest are parsed in
order, a missing label defaults to "Unknown", and the concrete 3-record
payload whose record 2 has width 0 yields exactly the records 1 and 3
detections in original order. -/
theorem azure_per_record_policy_c4 :
    (∀ (p : AzurePrediction) (rest : List AzurePrediction),
        p.boundingBox = [] →
          parse_azure_response (p :: rest) = parse_azure_response rest)
    ∧ (∀ (p : AzurePrediction) (rest : List AzurePrediction),
        dictGetD p.boundingBox ("width") 0 ≤ 0 ∨
            dictGetD p.boundingBox ("height") 0 ≤ 0 →
          parse_azure_response (p :: rest) = parse_azure_response rest)
    ∧ (∀ (p : AzurePrediction) (d : Detection),
        p.tagName = none → parse_azure_prediction p = some d →
          d.tag_name = ("Unknown"))
    ∧ (∀ (p : AzurePrediction) (rest : List AzurePrediction) (d : Detection),
        parse_azure_prediction p = some d →
          parse_azure_response (p :: rest) = d :: parse_azure_response rest)
    ∧ parse_azure_response [azureRec1, azureRec2, azureRec3] =
        [azureDet1, azureDet3] := by
  refine ⟨?_, ?_, ?_, ?_, by with_unfolding_all decide⟩
  · intro p rest h
    have hp : parse_azure_prediction p = none := by
      unfold parse_azure_prediction
      rw [if_pos]
      rw [h]
      rfl
    simp [parse_azure_response, List.filterMap_cons, hp]
  · intro p rest h
    have hp : parse_azure_prediction p = none := by
      unfold parse_azure_prediction
      split
      · rfl
      · rw [if_pos]
        exact h
    simp [parse_azure_response, List.filterMap_cons, hp]
  · intro p d hn h
    simp only [parse_azure_prediction] at h
    split at h
    · exact absurd h (by simp)
    · split at h
      · exact absurd h (by simp)
      · cases h
        simp [hn]
  · intro p rest d h
    simp [parse_azure_response, List.filterMap_cons, h]

/-- Witness for claim C4: a record with an empty box dict is skipped,
and a concrete surviving record is kept in front of the rest. -/
theorem azure_per_record_policy_c4_witness :
    (azureRecNoBox.boundingBox = []) ∧
      parse_azure_response [azureRecNoBox, azureRec1] =
        parse_azure_response [azureRec1] :=
  ⟨rfl, azure_per_record_policy_c4.1 azureRecNoBox [azureRec1] rfl⟩

/-- Claim C5 (defect evaluation): the tag-to-color mapping produced by
the assignment loop is a function of the enumeration order of the
unique-tag set, not of the set itself: the two enumerations of the same
two-tag set give tag "a" different colors.  The code enumerates tags via
Python `list(set(...))`, whose order is not fixed across interpreter
runs, so the mapping is not deterministic across runs. -/
theorem color_assignment_order_dependent_c5 :
    (["a", "b"] : List String).Perm (["b", "a"]) ∧
      tag_color ["a", "b"] ("a") ≠ tag_color ["b", "a"] ("a") := by
  with_unfolding_all decide

/-- Claim C7: the annotator returns an image on every input and every
behaviour of the drawing environment — either the successfully
annotated copy, or, when the pipeline body fails, the unannotated
source image; no failure propagates to the caller. -/
theorem annotator_never_raises_c7 :
    ∀ (o : DrawOracle) (image : PilImage) (res : DetectionResult) (thr : Rat),
      (∃ annotated, draw_pipeline o image res thr = Except.ok annotated ∧
          draw_bounding_boxes o image res thr = annotated)
      ∨ (∃ msg, draw_pipeline o image res thr = Except.error msg ∧
          draw_bounding_boxes o image res thr = image) := by
  intro o image res thr
  cases h : draw_pipeline o image res thr with
  | ok annotated =>
      exact Or.inl ⟨annotated, rfl, by simp [draw_bounding_boxes, h]⟩
  | error msg =>
      exact Or.inr ⟨msg, rfl, by simp [draw_bounding_boxes, h]⟩

/-- Claim C9: when the threshold exceeds every detection's confidence,
the annotator draws nothing and the returned image is pixel-identical
to the unannotated source (which the pure pipeline never mutates: all
drawing applies to the copy). -/
theorem annotate_noop_c9 :
    ∀ (o : DrawOracle) (image : PilImage) (res : DetectionResult) (thr : Rat),
      (∀ d ∈ res.detections, d.confidence < thr) →
        draw_bounding_boxes o image res thr = image := by
  intro o image res thr h
  have hf : res.get_high_confidence_detections (some thr) = [] := by
    unfold DetectionResult.get_high_confidence_detections
    rw [List.filter_eq_nil_iff]
    intro d hd
    simp only [decide_eq_true_eq, not_le]
    exact h d hd
  simp [draw_bounding_boxes, draw_pipeline, hf, List.foldlM, pure, Except.pure]

/-- Sample 2x2 image. -/
def sampleImage : PilImage :=
  { width := 2, height := 2, pixels := [["w", "w"], ["w", "w"]] }

/-- Sample drawing environment whose primitives all succeed and whose
font files are missing. -/
def sampleOracle : DrawOracle :=
  { loadArial := Except.error ("OSError")
    loadCalibri := Except.error ("OSError")
    defaultFont := { name := "default", size := 10 }
    drawRect := fun img _ _ _ _ _ => Except.ok img
    fillRect := fun img _ _ _ _ _ => Except.ok img
    textbbox := fun _ _ => Except.ok { x0 := 0, y0 := 0, x1 := 6, y1 := 10 }
    drawText := fun img _ _ _ _ _ => Except.ok img
    enumSet := fun tags => tags.dedup }

/-- Witness for claim C9: threshold 2 is above both sample confidences
and annotation returns the source image unchanged. -/
theorem annotate_noop_c9_witness :
    (∀ d ∈ sampleResult.detections, d.confidence < 2) ∧
      draw_bounding_boxes sampleOracle sampleImage sampleResult 2 = sampleImage :=
  ⟨by with_unfolding_all decide,
   annotate_noop_c9 sampleOracle sampleImage sampleResult 2
     (by with_unfolding_all decide)⟩

/-- The vertex-set bounding region named by the spec scenario: four
normalized (x, y) pairs describing a rectangle. -/
def vertexBoxInput : List GVal :=
  [GVal.list [GVal.num (mkRat 1 5), GVal.num (mkRat 3 10)],
   GVal.list [GVal.num (mkRat 3 5), GVal.num (mkRat 3 10)],
   GVal.list [GVal.num (mkRat 3 5), GVal.num (mkRat 4 5)],
   GVal.list [GVal.num (mkRat 1 5), GVal.num (mkRat 4 5)]]

/-- Claim C8 counterexample: the normalizer has no vertex-conversion
path; on the spec's own vertex example it produces no detection at all,
not the min/max-derived box the claim promises. -/
theorem google_vertex_c8_counterexample :
    create_detection_from_box ("person") vertexBoxInput (mkRat 1 2) ≠
      some { tag_name := "person", confidence := mkRat 1 2,
             bounding_box := { left := mkRat 1 5, top := mkRat 3 10,
                               width := mkRat 2 5, height := mkRat 1 2 } } := by
  with_unfolding_all decide

/-- Claim C8 (amended): a Variant-B bounding region given as (x, y)
vertex pairs is never converted: the per-coordinate float coercion
fails on a pair, the record-level handler drops the record, and no
detection is produced — in particular on the spec's rectangle. -/
theorem google_vertex_c8 :
    (∀ (name : String) (score : Rat) (v1 v2 v3 v4 rest : List GVal),
        create_detection_from_box name
          (GVal.list v1 :: GVal.list v2 :: GVal.list v3 :: GVal.list v4 :: rest)
          score = none)
    ∧ create_detection_from_box ("person") vertexBoxInput (mkRat 1 2) = none := by
  constructor
  · intro name score v1 v2 v3 v4 rest
    rfl
  · with_unfolding_all decide

/-- Claim C10: pairing is positional via `zip`, which stops at the
shortest of the three arrays: parsing equals parsing of the three
arrays truncated to the common length, and the output never exceeds
that length; surplus entries are ignored without error. -/
theorem google_zip_truncation_c10 :
    ∀ (names : List String) (boxes : List (List GVal)) (scores : List Rat),
      parse_google_standard names boxes scores =
        parse_google_standard
          (names.take (min (min names.length boxes.length) scores.length))
          (boxes.take (min (min names.length boxes.length) scores.length))
          (scores.take (min (min names.length boxes.length) scores.length))
      ∧ (parse_google_standard names boxes scores).length ≤
          min (min names.length boxes.length) scores.length := by
  intro ns bs ss
  have hk : (ns.zip (bs.zip ss)).length =
      min (min ns.length bs.length) ss.length := by
    simp only [List.length_zip]
    omega
  have h1 : ∀ n : Nat, (ns.zip (bs.zip ss)).take n =
      (ns.take n).zip ((bs.take n).zip (ss.take n)) := by
    intro n
    simp only [List.zip_eq_zipWith, List.take_zipWith]
  constructor
  · unfold parse_google_standard
    rw [← h1]
    rw [List.take_of_length_le (le_of_eq hk)]
  · calc (parse_google_standard ns bs ss).length
        ≤ (ns.zip (bs.zip ss)).length :=
          List.length_filterMap_le _ _
      _ = min (min ns.length bs.length) ss.length := hk
